import Mathlib

/-!
Verification development for the ML5 example sketches.

The repository contains three p5.js/ml5.js sketches:
* `examples/MoveNet_handRaiser/sketch.js` — a threshold-crossing counter over
  MoveNet body keypoints (namespace `HandRaiser` below);
* a MoveNet body-points sketch with distance / angle / centroid measurement
  (namespace `BodyPoints` below);
* a handPose drawing sketch (namespace `HandPose` below).

Numbers that only ever get compared (`y`, `confidence`) are modelled as `ℚ`
so the embedding stays executable; the geometry of the body-points sketch
(`sqrt`, `atan2`) is modelled over `ℝ`.  A JavaScript value that may be
`null`/`undefined` is modelled as an `Option`.
-/

namespace HandRaiser

/-- A MoveNet keypoint as the hand-raiser sketch reads it: pixel coordinates
and a confidence score. -/
structure Keypoint where
  x : ℚ
  y : ℚ
  confidence : ℚ
deriving Repr, DecidableEq

/-- One detected pose: the `keypoints` field may be missing (`!keypoints`
check in `getKeypoint`). -/
structure Pose where
  keypoints : Option (List Keypoint)
deriving Repr, DecidableEq

/-- Global `confidenceThreshold = 0.2`. -/
def confidenceThreshold : ℚ := 1 / 5

/-- Global `thresholdIndex = 0` (nose). -/
def thresholdIndex : Nat := 0

/-- Global `trackingIndex = 10` (right wrist). -/
def trackingIndex : Nat := 10

/-- The mutable threshold-crossing state of the sketch: globals
`lastAboveThreshold` and `crossCount`. -/
structure TState where
  lastAboveThreshold : Bool
  crossCount : Nat
deriving Repr, DecidableEq

/-- Initial state: `crossCount = 0`, `lastAboveThreshold = false`. -/
def initTState : TState := ⟨false, 0⟩

/-- `getKeypoint(pointIndex, personIndex)` reading the global `poses` array:
returns `null` on an empty list, a missing person, a missing `keypoints`
field, or a missing index; otherwise the stored keypoint. -/
def getKeypoint (poses : List Pose) (pointIndex : Nat) (personIndex : Nat) :
    Option Keypoint :=
  if poses.length = 0 then none
  else
    match poses.get? personIndex with
    | none => none
    | some pose =>
      match pose.keypoints with
      | none => none
      | some keypoints => keypoints.get? pointIndex

/-- `checkThresholdCross(thresholdPoint, trackingPoint)`: returns early when
either point is `null`; otherwise computes
`isAboveThreshold = trackingPoint.y < thresholdPoint.y`, increments
`crossCount` exactly on a `false → true` transition, and stores
`isAboveThreshold` into `lastAboveThreshold`. -/
def checkThresholdCross (thresholdPoint trackingPoint : Option Keypoint)
    (s : TState) : TState :=
  match thresholdPoint, trackingPoint with
  | some tp, some trp =>
    let isAboveThreshold : Bool := decide (trp.y < tp.y)
    { lastAboveThreshold := isAboveThreshold
      crossCount :=
        if isAboveThreshold && !s.lastAboveThreshold then s.crossCount + 1
        else s.crossCount }
  | _, _ => s

/-- The state-relevant part of `draw()`: when a pose is present, look up the
threshold and tracking points and run `checkThresholdCross` only if both are
non-null and pass the confidence filter; otherwise the state is untouched. -/
def drawUpdate (poses : List Pose) (s : TState) : TState :=
  if poses.length > 0 then
    let thresholdPoint := getKeypoint poses thresholdIndex 0
    let trackingPoint := getKeypoint poses trackingIndex 0
    match thresholdPoint, trackingPoint with
    | some tp, some trp =>
      if confidenceThreshold < tp.confidence ∧
          confidenceThreshold < trp.confidence then
        checkThresholdCross (some tp) (some trp) s
      else s
    | _, _ => s
  else s

/-- Run `checkThresholdCross` over a sequence of (threshold, tracking) point
pairs, one call per frame. -/
def runCalls (frames : List (Keypoint × Keypoint)) (s : TState) : TState :=
  frames.foldl (fun a f => checkThresholdCross (some f.1) (some f.2) a) s

/-- Run the draw-loop state update over a sequence of per-frame `poses`
values. -/
def runDraw (frames : List (List Pose)) (s : TState) : TState :=
  frames.foldl (fun a f => drawUpdate f a) s

/-- A valid single-person frame whose tracking point sits at height `ty`
while the threshold point sits at height `10`; both points have confidence
`1 > 0.2`.  The tracking index is 10, so the keypoint list has 11 entries. -/
def mkFrame (ty : ℚ) : List Pose :=
  [⟨some [⟨0, 10, 1⟩, ⟨0, 0, 1⟩, ⟨0, 0, 1⟩, ⟨0, 0, 1⟩, ⟨0, 0, 1⟩, ⟨0, 0, 1⟩,
      ⟨0, 0, 1⟩, ⟨0, 0, 1⟩, ⟨0, 0, 1⟩, ⟨0, 0, 1⟩, ⟨0, ty, 1⟩]⟩]

/-- A frame whose single pose has a confident threshold point (index 0,
`y = 10`) but no keypoint at the tracking index 10: the tracking point is
absent for this frame. -/
def absentFrame : List Pose := [⟨some [⟨0, 10, 1⟩]⟩]

/-- `gotPoses(results)` of the hand-raiser sketch: stores `results || []`
into the global `poses`. -/
def gotPoses (results : Option (List Pose)) : List Pose :=
  results.getD []

end HandRaiser

namespace BodyPoints

/-- A 2D point of the body-points sketch (`referencePoint`, keypoints):
coordinates live in `ℝ` because the sketch takes square roots and
arctangents of them. -/
structure Pt where
  x : ℝ
  y : ℝ

/-- An axis-aligned bounding box as delivered by MoveNet. -/
structure Box where
  xMin : ℝ
  xMax : ℝ
  yMin : ℝ
  yMax : ℝ

/-- A detected pose of the body-points sketch: an optional bounding `box`
and an optional keypoint list. -/
structure Pose where
  box : Option Box
  keypoints : Option (List Pt)

/-- The globals written by `gotPoses`: `poses`, `boundingBoxes` and
`centroid`. -/
structure GPState where
  poses : List Pose
  boundingBoxes : List Box
  centroid : Pt

/-- `gotPoses(results)` of the body-points sketch:
`poses = results || []`, `boundingBoxes = poses.map(p => p.box).filter(b => b != null)`,
and `centroid` is the midpoint of `boundingBoxes[0]` when that box exists,
else `(0, 0)`. -/
noncomputable def gotPoses (results : Option (List Pose)) : GPState :=
  let poses := results.getD []
  let boundingBoxes := (poses.map Pose.box).filterMap id
  let centroid : Pt :=
    match boundingBoxes.head? with
    | some box => ⟨(box.xMin + box.xMax) / 2, (box.yMin + box.yMax) / 2⟩
    | none => ⟨0, 0⟩
  ⟨poses, boundingBoxes, centroid⟩

/-- `Math.atan2(dy, dx)`, modelled as the argument of the complex number
`dx + dy·i`, which lies in `(-π, π]` and is `0` at the origin — the same
convention as the JavaScript function over the reals. -/
noncomputable def atan2 (dy dx : ℝ) : ℝ := Complex.arg ⟨dx, dy⟩

/-- `measureDistance(point1, point2)`: `null` when either input is `null`,
otherwise `Math.sqrt(dx*dx + dy*dy)` (the drawing it also performs is out of
scope). -/
noncomputable def measureDistance (point1 point2 : Option Pt) : Option ℝ :=
  match point1, point2 with
  | some p1, some p2 =>
    let dx := p2.x - p1.x
    let dy := p2.y - p1.y
    some (Real.sqrt (dx * dx + dy * dy))
  | _, _ => none

/-- `measureAngle(basePoint, endPoint)`: `null` when either input is `null`,
otherwise `atan2(dy, dx) * 180 / π`, with `360` added when that value is
negative (the drawing it also performs is out of scope). -/
noncomputable def measureAngle (basePoint endPoint : Option Pt) : Option ℝ :=
  match basePoint, endPoint with
  | some bp, some ep =>
    let dx := ep.x - bp.x
    let dy := ep.y - bp.y
    let angle := atan2 dy dx * 180 / Real.pi
    some (if angle < 0 then angle + 360 else angle)
  | _, _ => none

/-- The effect of one `keyPressed()` event on the global `bodyPointIndex`
(the spacebar and `s` branches touch other globals only): `LEFT_ARROW`
maps `i` to `(i - 1 + 17) % 17`, `RIGHT_ARROW` maps `i` to `(i + 1) % 17`.
The index is an `Int` because JavaScript evaluates `i - 1` below zero before
the remainder. -/
inductive Key where
  | space
  | leftArrow
  | rightArrow
  | sKey
  | other
deriving Repr, DecidableEq

/-- `keyPressed` restricted to its effect on `bodyPointIndex`. -/
def keyPressedIndex (k : Key) (bodyPointIndex : Int) : Int :=
  match k with
  | .leftArrow => (bodyPointIndex - 1 + 17) % 17
  | .rightArrow => (bodyPointIndex + 1) % 17
  | _ => bodyPointIndex

/-- The initial value of the global `bodyPointIndex`. -/
def initBodyPointIndex : Int := 2

/-- Run a sequence of key events from an index value. -/
def runKeys (ks : List Key) (i : Int) : Int :=
  ks.foldl (fun a k => keyPressedIndex k a) i

/-- A concrete bounding box used to exercise `gotPoses`. -/
def sampleBox : Box := ⟨0, 2, 0, 4⟩

/-- A concrete pose carrying `sampleBox` and no keypoint list. -/
def samplePose : Pose := ⟨some sampleBox, none⟩

end BodyPoints

namespace HandPose

/-- A hand keypoint of the handPose sketch. -/
structure Keypoint where
  x : ℝ
  y : ℝ

/-- One detected hand. -/
structure Hand where
  keypoints : List Keypoint

/-- `gotHands(results)` of the handPose sketch: `hands = results;` — the
delivered value is stored unchanged, with no `|| []` coercion. -/
def gotHands (results : Option (List Hand)) : Option (List Hand) :=
  results

end HandPose

/-! ### Helper lemmas -/

/-- `getKeypoint` is the chain of optional lookups: person, keypoint list,
index (the leading emptiness test is subsumed by the person lookup). -/
theorem getKeypoint_eq_bind (poses : List HandRaiser.Pose)
    (pointIndex personIndex : Nat) :
    HandRaiser.getKeypoint poses pointIndex personIndex =
      (poses.get? personIndex).bind fun pose =>
        pose.keypoints.bind fun ks => ks.get? pointIndex := by
  unfold HandRaiser.getKeypoint
  by_cases h : poses.length = 0
  · have hnil : poses = [] := List.length_eq_zero.mp h
    subst hnil
    simp
  · rw [if_neg h]
    cases hp : poses.get? personIndex with
    | none => simp
    | some pose =>
      obtain ⟨kps⟩ := pose
      cases kps <;> simp

/-- Each frame of the draw loop leaves `crossCount` unchanged or increments
it by exactly one. -/
theorem drawUpdate_crossCount_cases (frame : List HandRaiser.Pose)
    (s : HandRaiser.TState) :
    (HandRaiser.drawUpdate frame s).crossCount = s.crossCount ∨
      (HandRaiser.drawUpdate frame s).crossCount = s.crossCount + 1 := by
  unfold HandRaiser.drawUpdate
  by_cases hl : frame.length > 0
  · rw [if_pos hl]
    cases htp : HandRaiser.getKeypoint frame HandRaiser.thresholdIndex 0 with
    | none => exact Or.inl rfl
    | some tp =>
      cases htr : HandRaiser.getKeypoint frame HandRaiser.trackingIndex 0 with
      | none => exact Or.inl rfl
      | some trp =>
        show ((if HandRaiser.confidenceThreshold < tp.confidence ∧
              HandRaiser.confidenceThreshold < trp.confidence then
            HandRaiser.checkThresholdCross (some tp) (some trp) s
          else s).crossCount = s.crossCount ∨
          (if HandRaiser.confidenceThreshold < tp.confidence ∧
              HandRaiser.confidenceThreshold < trp.confidence then
            HandRaiser.checkThresholdCross (some tp) (some trp) s
          else s).crossCount = s.crossCount + 1)
        by_cases hc : HandRaiser.confidenceThreshold < tp.confidence ∧
            HandRaiser.confidenceThreshold < trp.confidence
        · rw [if_pos hc]
          unfold HandRaiser.checkThresholdCross
          by_cases hy : trp.y < tp.y <;> cases hfl : s.lastAboveThreshold <;>
            simp [hy, hfl]
        · rw [if_neg hc]
          exact Or.inl rfl
  · rw [if_neg hl]
    exact Or.inl rfl

/-! ### Claims -/

/-- Claim C1: `checkThresholdCross` on two present points computes
`isAbove = (trackingPoint.y < thresholdPoint.y)`, increments `crossCount`
by exactly 1 when `isAbove` holds and the previous flag was false, leaves
`crossCount` unchanged in every other case, and stores `isAbove` into the
flag; the `isAbove` sequence `[F, F, T, T, F, T]` yields `crossCount = 2`. -/
theorem checkThresholdCross_spec :
    (∀ (s : HandRaiser.TState) (tp trp : HandRaiser.Keypoint),
      (HandRaiser.checkThresholdCross (some tp) (some trp) s).lastAboveThreshold
          = decide (trp.y < tp.y) ∧
      ((trp.y < tp.y ∧ s.lastAboveThreshold = false) →
        (HandRaiser.checkThresholdCross (some tp) (some trp) s).crossCount
          = s.crossCount + 1) ∧
      (¬(trp.y < tp.y ∧ s.lastAboveThreshold = false) →
        (HandRaiser.checkThresholdCross (some tp) (some trp) s).crossCount
          = s.crossCount)) ∧
    (HandRaiser.runCalls
        [(⟨0, 10, 1⟩, ⟨0, 20, 1⟩), (⟨0, 10, 1⟩, ⟨0, 20, 1⟩),
         (⟨0, 10, 1⟩, ⟨0, 5, 1⟩), (⟨0, 10, 1⟩, ⟨0, 5, 1⟩),
         (⟨0, 10, 1⟩, ⟨0, 20, 1⟩), (⟨0, 10, 1⟩, ⟨0, 5, 1⟩)]
        HandRaiser.initTState).crossCount = 2 := by
  constructor
  · intro s tp trp
    unfold HandRaiser.checkThresholdCross
    refine ⟨rfl, ?_, ?_⟩
    · rintro ⟨hy, hf⟩
      simp [hy, hf]
    · intro h
      by_cases hy : trp.y < tp.y
      · have hf : s.lastAboveThreshold = true := by
          cases hfl : s.lastAboveThreshold
          · exact absurd ⟨hy, hfl⟩ h
          · rfl
        simp [hy, hf]
      · simp [hy]
  · decide

/-- Witness for C1 at a concrete call: threshold `y = 10`, tracking `y = 5`,
initial state — the counter goes from 0 to 1. -/
theorem checkThresholdCross_spec_witness :
    (HandRaiser.checkThresholdCross (some ⟨0, 10, 1⟩) (some ⟨0, 5, 1⟩)
        HandRaiser.initTState).crossCount = HandRaiser.initTState.crossCount + 1 :=
  (checkThresholdCross_spec.1 HandRaiser.initTState ⟨0, 10, 1⟩ ⟨0, 5, 1⟩).2.1
    ⟨by norm_num, rfl⟩

/-- Claim C2: a frame in which the threshold point or the tracking point is
absent, or has confidence at most `confidenceThreshold`, leaves both
`lastAboveThreshold` and `crossCount` unchanged; the frame sequence
`[valid-above, point-absent, valid-above]` ends with the counter at 1,
not incremented at the third frame. -/
theorem drawUpdate_missing_data_noop :
    (∀ (poses : List HandRaiser.Pose) (s : HandRaiser.TState),
      (HandRaiser.getKeypoint poses HandRaiser.thresholdIndex 0 = none ∨
       HandRaiser.getKeypoint poses HandRaiser.trackingIndex 0 = none ∨
       (∃ tp, HandRaiser.getKeypoint poses HandRaiser.thresholdIndex 0 = some tp ∧
          tp.confidence ≤ HandRaiser.confidenceThreshold) ∨
       (∃ trp, HandRaiser.getKeypoint poses HandRaiser.trackingIndex 0 = some trp ∧
          trp.confidence ≤ HandRaiser.confidenceThreshold)) →
      HandRaiser.drawUpdate poses s = s) ∧
    HandRaiser.runDraw
      [HandRaiser.mkFrame 5, HandRaiser.absentFrame, HandRaiser.mkFrame 5]
      HandRaiser.initTState = ⟨true, 1⟩ := by
  constructor
  · intro poses s h
    unfold HandRaiser.drawUpdate
    by_cases hl : poses.length > 0
    · rw [if_pos hl]
      cases htp : HandRaiser.getKeypoint poses HandRaiser.thresholdIndex 0 with
      | none => rfl
      | some tp =>
        cases htr : HandRaiser.getKeypoint poses HandRaiser.trackingIndex 0 with
        | none => rfl
        | some trp =>
          show (if HandRaiser.confidenceThreshold < tp.confidence ∧
                HandRaiser.confidenceThreshold < trp.confidence then
              HandRaiser.checkThresholdCross (some tp) (some trp) s
            else s) = s
          rcases h with h | h | ⟨tp', htp', hle⟩ | ⟨trp', htr', hle⟩
          · rw [htp] at h; exact absurd h (Option.some_ne_none tp)
          · rw [htr] at h; exact absurd h (Option.some_ne_none trp)
          · rw [htp] at htp'
            have he : tp = tp' := by injection htp'
            subst he
            rw [if_neg (by intro hc; exact absurd hc.1 (not_lt.mpr hle))]
          · rw [htr] at htr'
            have he : trp = trp' := by injection htr'
            subst he
            rw [if_neg (by intro hc; exact absurd hc.2 (not_lt.mpr hle))]
    · rw [if_neg hl]
  · norm_num [HandRaiser.runDraw, HandRaiser.drawUpdate, HandRaiser.getKeypoint,
      HandRaiser.checkThresholdCross, HandRaiser.confidenceThreshold,
      HandRaiser.thresholdIndex, HandRaiser.trackingIndex, HandRaiser.mkFrame,
      HandRaiser.initTState, HandRaiser.absentFrame, List.foldl]

/-- Witness for C2 at a concrete frame: the tracking point is absent and the
state `⟨true, 1⟩` is returned untouched. -/
theorem drawUpdate_missing_data_noop_witness :
    HandRaiser.drawUpdate HandRaiser.absentFrame ⟨true, 1⟩ = ⟨true, 1⟩ :=
  drawUpdate_missing_data_noop.1 HandRaiser.absentFrame ⟨true, 1⟩
    (Or.inr (Or.inl (by decide)))

/-- Claim C3: `getKeypoint` returns the stored keypoint exactly when the
poses list is non-empty, the person exists, its keypoint list is present and
contains the index; on an empty list or an out-of-range person index it
returns `none` (and, being total, never throws). -/
theorem getKeypoint_contract :
    (∀ (poses : List HandRaiser.Pose) (pointIndex personIndex : Nat)
        (k : HandRaiser.Keypoint),
      HandRaiser.getKeypoint poses pointIndex personIndex = some k ↔
        (poses ≠ [] ∧ ∃ pose, poses.get? personIndex = some pose ∧
          ∃ ks, pose.keypoints = some ks ∧ ks.get? pointIndex = some k)) ∧
    (∀ pointIndex personIndex : Nat,
      HandRaiser.getKeypoint [] pointIndex personIndex = none) ∧
    (∀ (poses : List HandRaiser.Pose) (pointIndex extra : Nat),
      HandRaiser.getKeypoint poses pointIndex (poses.length + extra) = none) := by
  refine ⟨?_, ?_, ?_⟩
  · intro poses pi si k
    rw [getKeypoint_eq_bind]
    simp only [Option.bind_eq_some]
    constructor
    · rintro ⟨pose, hp, ks, hk, hi⟩
      refine ⟨?_, pose, hp, ks, hk, hi⟩
      intro hnil
      subst hnil
      simp at hp
    · rintro ⟨-, pose, hp, ks, hk, hi⟩
      exact ⟨pose, hp, ks, hk, hi⟩
  · intro pi si
    rfl
  · intro poses pi extra
    rw [getKeypoint_eq_bind, List.get?_eq_none.mpr (Nat.le_add_right _ _)]
    rfl

/-- Claim C9: every per-frame update leaves `crossCount` unchanged or
increments it by exactly 1, and over any frame sequence the counter never
decreases. -/
theorem crossCount_monotone :
    (∀ (frame : List HandRaiser.Pose) (s : HandRaiser.TState),
      (HandRaiser.drawUpdate frame s).crossCount = s.crossCount ∨
      (HandRaiser.drawUpdate frame s).crossCount = s.crossCount + 1) ∧
    (∀ (frames : List (List HandRaiser.Pose)) (s : HandRaiser.TState),
      s.crossCount ≤ (HandRaiser.runDraw frames s).crossCount) := by
  have hstep : ∀ (f : List HandRaiser.Pose) (s : HandRaiser.TState),
      s.crossCount ≤ (HandRaiser.drawUpdate f s).crossCount := by
    intro f s
    rcases drawUpdate_crossCount_cases f s with h | h <;> omega
  refine ⟨drawUpdate_crossCount_cases, ?_⟩
  intro frames
  induction frames with
  | nil => intro s; exact le_refl _
  | cons f fs ih =>
    intro s
    exact le_trans (hstep f s) (ih (HandRaiser.drawUpdate f s))

/-- Key events never take `bodyPointIndex` out of `[0, 17)`. -/
theorem runKeys_mem_range (ks : List BodyPoints.Key) :
    ∀ i : Int, 0 ≤ i → i < 17 →
      0 ≤ BodyPoints.runKeys ks i ∧ BodyPoints.runKeys ks i < 17 := by
  induction ks with
  | nil => intro i h0 h17; exact ⟨h0, h17⟩
  | cons k ks ih =>
    intro i h0 h17
    have hstep : 0 ≤ BodyPoints.keyPressedIndex k i ∧
        BodyPoints.keyPressedIndex k i < 17 := by
      cases k with
      | leftArrow =>
        exact ⟨Int.emod_nonneg _ (by norm_num), Int.emod_lt_of_pos _ (by norm_num)⟩
      | rightArrow =>
        exact ⟨Int.emod_nonneg _ (by norm_num), Int.emod_lt_of_pos _ (by norm_num)⟩
      | space => exact ⟨h0, h17⟩
      | sKey => exact ⟨h0, h17⟩
      | other => exact ⟨h0, h17⟩
    exact ih _ hstep.1 hstep.2

/-- Claim C10: from the initial value 2, `bodyPointIndex` stays in `0..16`
after every sequence of key events; `LEFT_ARROW` maps `i` to
`(i - 1 + 17) % 17` and `RIGHT_ARROW` maps `i` to `(i + 1) % 17`. -/
theorem bodyPointIndex_range :
    (∀ i : Int, BodyPoints.keyPressedIndex .leftArrow i = (i - 1 + 17) % 17) ∧
    (∀ i : Int, BodyPoints.keyPressedIndex .rightArrow i = (i + 1) % 17) ∧
    (∀ ks : List BodyPoints.Key,
      0 ≤ BodyPoints.runKeys ks BodyPoints.initBodyPointIndex ∧
      BodyPoints.runKeys ks BodyPoints.initBodyPointIndex < 17) :=
  ⟨fun _ => rfl, fun _ => rfl,
   fun ks => runKeys_mem_range ks BodyPoints.initBodyPointIndex (by decide) (by decide)⟩

/-- Claim C8 (counterexample): the handPose sketch's `gotHands` stores the
delivered value unchanged, so a `null` delivery leaves the stored `hands`
value `null` rather than a list. -/
theorem gotHands_null_counterexample : HandPose.gotHands none = none := rfl

/-- Claim C8 (amended): the two pose callbacks coerce `null`/`undefined`
deliveries to the empty list, so their stored poses value is always a list;
the handPose callback stores the delivered value unchanged. -/
theorem detectionCallbacks_store :
    (∀ results, HandRaiser.gotPoses results = results.getD []) ∧
    (∀ results, (BodyPoints.gotPoses results).poses = results.getD []) ∧
    (∀ results, HandPose.gotHands results = results) :=
  ⟨fun _ => rfl, fun _ => rfl, fun _ => rfl⟩

/-- The stored centroid is determined by the head of the filtered
bounding-box list. -/
theorem gotPoses_centroid_eq (results : Option (List BodyPoints.Pose)) :
    (BodyPoints.gotPoses results).centroid =
      match (BodyPoints.gotPoses results).boundingBoxes.head? with
      | some box => ⟨(box.xMin + box.xMax) / 2, (box.yMin + box.yMax) / 2⟩
      | none => ⟨0, 0⟩ := rfl

/-- Claim C6: when the first bounding box `B` is present the stored centroid
is `((B.xMin + B.xMax)/2, (B.yMin + B.yMax)/2)`; with no detection or no box
it is the zero default `(0, 0)`. -/
theorem gotPoses_centroid_spec :
    ∀ results : Option (List BodyPoints.Pose),
      ((BodyPoints.gotPoses results).boundingBoxes.head? = none →
        (BodyPoints.gotPoses results).centroid = ⟨0, 0⟩) ∧
      (∀ box, (BodyPoints.gotPoses results).boundingBoxes.head? = some box →
        (BodyPoints.gotPoses results).centroid =
          ⟨(box.xMin + box.xMax) / 2, (box.yMin + box.yMax) / 2⟩) := by
  intro results
  constructor
  · intro h
    rw [gotPoses_centroid_eq, h]
  · intro box h
    rw [gotPoses_centroid_eq, h]

/-- Witness for C6: a single pose with box `(0, 2) × (0, 4)` puts the
centroid at the box midpoint, and a `null` result yields `(0, 0)`. -/
theorem gotPoses_centroid_spec_witness :
    (BodyPoints.gotPoses (some [BodyPoints.samplePose])).centroid =
      ⟨(BodyPoints.sampleBox.xMin + BodyPoints.sampleBox.xMax) / 2,
       (BodyPoints.sampleBox.yMin + BodyPoints.sampleBox.yMax) / 2⟩ ∧
    (BodyPoints.gotPoses none).centroid = ⟨0, 0⟩ :=
  ⟨(gotPoses_centroid_spec (some [BodyPoints.samplePose])).2 BodyPoints.sampleBox rfl,
   (gotPoses_centroid_spec none).1 rfl⟩

/-- Claim C7: `measureDistance` on two present points is the Euclidean
distance, and it is `null` when either input is absent. -/
theorem measureDistance_spec :
    (∀ a b : BodyPoints.Pt,
      BodyPoints.measureDistance (some a) (some b) =
        some (Real.sqrt ((b.x - a.x) ^ 2 + (b.y - a.y) ^ 2))) ∧
    (∀ b : Option BodyPoints.Pt, BodyPoints.measureDistance none b = none) ∧
    (∀ a : Option BodyPoints.Pt, BodyPoints.measureDistance a none = none) := by
  refine ⟨?_, ?_, ?_⟩
  · intro a b
    simp [BodyPoints.measureDistance, pow_two]
  · intro b
    cases b <;> rfl
  · intro a
    cases a <;> rfl

/-- The degree conversion of an angle in `(-π, π]`, with `360` added when
negative, lies in `[0, 360)`. -/
theorem norm360_bounds (θ : ℝ) (h1 : -Real.pi < θ) (h2 : θ ≤ Real.pi) :
    0 ≤ (if θ * 180 / Real.pi < 0 then θ * 180 / Real.pi + 360
         else θ * 180 / Real.pi) ∧
    (if θ * 180 / Real.pi < 0 then θ * 180 / Real.pi + 360
     else θ * 180 / Real.pi) < 360 := by
  have hp : (0:ℝ) < Real.pi := Real.pi_pos
  have hle : θ * 180 / Real.pi ≤ 180 := by
    rw [div_le_iff hp]
    nlinarith
  have hgt : (-180 : ℝ) < θ * 180 / Real.pi := by
    rw [lt_div_iff hp]
    nlinarith
  by_cases hneg : θ * 180 / Real.pi < 0
  · rw [if_pos hneg]
    constructor <;> linarith
  · rw [if_neg hneg]
    push_neg at hneg
    constructor <;> linarith

/-- Claim C4: on two present points, `measureAngle` returns a number in the
half-open interval `[0, 360)`. -/
theorem measureAngle_range :
    ∀ bp ep : BodyPoints.Pt, ∃ a : ℝ,
      BodyPoints.measureAngle (some bp) (some ep) = some a ∧ 0 ≤ a ∧ a < 360 := by
  intro bp ep
  refine ⟨_, rfl, ?_⟩
  exact norm360_bounds (BodyPoints.atan2 (ep.y - bp.y) (ep.x - bp.x))
    (Complex.neg_pi_lt_arg _) (Complex.arg_le_pi _)

/-- Claim C5: `measureAngle` is `atan2(dy, dx)` in degrees with `360` added
when negative, and the degenerate call `measureAngle(p, p)` returns 0. -/
theorem measureAngle_def_spec :
    (∀ bp ep : BodyPoints.Pt,
      BodyPoints.measureAngle (some bp) (some ep) =
        some (if BodyPoints.atan2 (ep.y - bp.y) (ep.x - bp.x) * 180 / Real.pi < 0
            then BodyPoints.atan2 (ep.y - bp.y) (ep.x - bp.x) * 180 / Real.pi + 360
            else BodyPoints.atan2 (ep.y - bp.y) (ep.x - bp.x) * 180 / Real.pi)) ∧
    (∀ p : BodyPoints.Pt, BodyPoints.measureAngle (some p) (some p) = some 0) := by
  constructor
  · intro bp ep
    rfl
  · intro p
    have h0 : BodyPoints.atan2 (p.y - p.y) (p.x - p.x) = 0 := by
      show Complex.arg ⟨p.x - p.x, p.y - p.y⟩ = 0
      have hz : (⟨p.x - p.x, p.y - p.y⟩ : ℂ) = 0 := by
        apply Complex.ext <;> simp
      rw [hz, Complex.arg_zero]
    have hdef : BodyPoints.measureAngle (some p) (some p) =
        some (if BodyPoints.atan2 (p.y - p.y) (p.x - p.x) * 180 / Real.pi < 0
            then BodyPoints.atan2 (p.y - p.y) (p.x - p.x) * 180 / Real.pi + 360
            else BodyPoints.atan2 (p.y - p.y) (p.x - p.x) * 180 / Real.pi) := rfl
    rw [hdef, h0]
    simp
